import Mathlib

/-!
Verification of the newsfeed digest generator (pco2699/newsfeed).

This file gives a shallow embedding of the orchestration core of the
repository — the retry wrapper, the fetch aggregation and per-source
deduplication, the AI-summarization adapter with its fallback, the archive
cleanup, and the process exit contract — and proves or refutes the frozen
claims about them.

Conventions of the embedding:
* Python dictionaries holding the article / summary records are modelled as
  Lean structures; a key that the code may leave absent is an `Option` field
  (`none` = key missing / value `None`).
* Raising an exception is modelled with `Except Unit`; an operation handed to
  the retry wrapper is a function from the attempt number (1-based) to
  `Except Unit α`.
* `time.sleep` is modelled by accumulating the slept durations; wall-clock
  datetimes are modelled as `Int` seconds (days since the proleptic Gregorian
  epoch × 86400, matching `datetime`'s total order at second granularity).
* Network / filesystem effects are parameters: the bytes a fetcher would have
  received, the completion order of the parallel story fetches, the files
  present in the archive directory.
-/

namespace Newsfeed

/-- Article record produced by the source adapters (`hatena_fetcher.py`,
`hackernews_fetcher.py`, `reddit_fetcher.py`).  Every adapter sets these five
keys; adapter-specific extras (`category`, `description`, `subreddit`,
`comments_count`, …) are carried along by the Python dicts but never read by
the orchestration logic the claims are about, so they are omitted. -/
structure Article where
  source : String
  title : String
  url : String
  score : Int
  score_label : String
  deriving Repr, DecidableEq

/-! ## Retry wrapper (`DigestGenerator._retry_operation`, main.py:120-146) -/

/-- Default `self.max_retries` set in `DigestGenerator.__init__`. -/
def maxRetries : Nat := 3

/-- Default `self.retry_delay` (seconds) set in `DigestGenerator.__init__`. -/
def retryDelay : Nat := 5

/-- Observable outcome of `_retry_operation`: `result = some v` models the
`return result` on the first attempt that does not raise; `result = none`
models falling through the loop to the final `return []`.  `attempts` counts
how many times the operation was invoked, and `totalSleep` sums the durations
passed to `time.sleep`. -/
structure RetryOutcome (α : Type) where
  result : Option α
  attempts : Nat
  totalSleep : Nat
  deriving Repr, DecidableEq

/-- The `for attempt in range(1, self.max_retries + 1)` loop of
`_retry_operation`.  `fuel` is the number of loop iterations still to run
(initially `maxRetries`, with `attempt` starting at 1).  On success the loop
returns immediately; on failure it sleeps `delay * 2^(attempt-1)` only when
`attempt < m`. -/
def retryLoop (op : Nat → Except Unit α) (delay m : Nat) : Nat → Nat → RetryOutcome α
  | _, 0 => ⟨none, 0, 0⟩
  | attempt, fuel + 1 =>
    match op attempt with
    | Except.ok a => ⟨some a, 1, 0⟩
    | Except.error _ =>
      let rest := retryLoop op delay m (attempt + 1) fuel
      if attempt < m then
        ⟨rest.result, rest.attempts + 1, rest.totalSleep + delay * 2 ^ (attempt - 1)⟩
      else
        ⟨rest.result, rest.attempts + 1, rest.totalSleep⟩

/-- `DigestGenerator._retry_operation` with the constructor defaults
(`max_retries = 3`, `retry_delay = 5`). -/
def retryOperation (op : Nat → Except Unit α) : RetryOutcome α :=
  retryLoop op retryDelay maxRetries 1 maxRetries

/-- A fetch call through the retry wrapper: the wrapper's `return []` after
exhaustion makes the source contribute an empty article list. -/
def retryFetch (op : Nat → Except Unit (List Article)) : List Article :=
  (retryOperation op).result.getD []

/-- Per-source `enabled` flags from `config.yaml`
(`self.config['sources'][…]['enabled']`). -/
structure SourcesConfig where
  hatenaEnabled : Bool
  hackernewsEnabled : Bool
  redditEnabled : Bool
  deriving Repr, DecidableEq

/-- `DigestGenerator.fetch_articles_with_retry` (main.py:61-95): each enabled
source is fetched through the retry wrapper and the per-source results are
concatenated in the fixed order Hatena, Hacker News, Reddit.  The three
operations are parameters standing for the adapters' network interactions. -/
def fetchArticlesWithRetry (cfg : SourcesConfig)
    (hatenaOp hackernewsOp redditOp : Nat → Except Unit (List Article)) : List Article :=
  (if cfg.hatenaEnabled then retryFetch hatenaOp else []) ++
  (if cfg.hackernewsEnabled then retryFetch hackernewsOp else []) ++
  (if cfg.redditEnabled then retryFetch redditOp else [])

/-! ## AI summarizer (`src/summarizer.py`) -/

/-- One entry of the `source_summaries` list of the summary schema. -/
structure SourceSummary where
  source : String
  icon : String
  summary : String
  article_count : Nat
  deriving Repr, DecidableEq

/-- One entry of the `key_topics` list of the summary schema. -/
structure TopicTag where
  topic : String
  icon : String
  deriving Repr, DecidableEq

/-- Summary dictionary as handled by `summarizer.py`: a Python dict in which
each schema key may be present (`some`) or absent (`none`).  Both
`_parse_summary_response` and `_create_fallback_summary` return dicts with all
five keys present; a dict freshly decoded from the model response may be
missing any of them. -/
structure SummaryDict where
  title : Option String
  overall_summary : Option String
  source_summaries : Option (List SourceSummary)
  key_topics : Option (List TopicTag)
  total_articles : Option Nat
  deriving Repr, DecidableEq

/-- Model of the raw generation-service response at the granularity
`_parse_summary_response` branches on: `json.loads` (after the markdown
code-fence stripping, which together with JSON lexing is library-level string
processing folded into this abstraction) either raises `JSONDecodeError`
(`malformed`) or yields a dict whose schema keys are the optional fields of
`SummaryDict`. -/
inductive RawResponse
  | malformed
  | parsed (dict : SummaryDict)
  deriving Repr, DecidableEq

/-- Python dict truthiness restricted to the schema keys the pipeline tracks:
a dict is truthy iff it has at least one key. -/
def dictTruthy (s : SummaryDict) : Bool :=
  s.title.isSome || s.overall_summary.isSome || s.source_summaries.isSome ||
    s.key_topics.isSome || s.total_articles.isSome

/-- Stable descending insertion by `score`: an element is placed before the
first already-sorted element of strictly smaller score, so that articles with
equal scores keep their original relative order — the behaviour of Python's
`sorted(…, key=lambda x: x.get('score', 0), reverse=True)` (a stable sort with
reversed comparisons). -/
def insertByScoreDesc (a : Article) : List Article → List Article
  | [] => [a]
  | b :: bs =>
    if a.score < b.score then b :: insertByScoreDesc a bs
    else a :: b :: bs

/-- Stable descending sort by `score`, modelling
`sorted(articles, key=lambda x: x.get('score', 0), reverse=True)` in
`_create_fallback_summary` and the equivalent `stories.sort(…)` in
`HackerNewsFetcher._fetch_story_details`. -/
def sortByScoreDesc : List Article → List Article
  | [] => []
  | a :: as => insertByScoreDesc a (sortByScoreDesc as)

/-- One step of the grouping loop of `_create_fallback_summary`: append the
article to its source's group, creating the group at the end on first sight —
Python dicts preserve key insertion order. -/
def insertGroup : List (String × List Article) → Article → List (String × List Article)
  | [], a => [(a.source, [a])]
  | (s, g) :: rest, a =>
    if s = a.source then (s, g ++ [a]) :: rest
    else (s, g) :: insertGroup rest a

/-- The `by_source` dict of `_create_fallback_summary`, as an
insertion-ordered association list. -/
def groupBySource (articles : List Article) : List (String × List Article) :=
  articles.foldl insertGroup []

/-- The `source_icons` lookup of `_create_fallback_summary`, with its `'📰'`
default. -/
def sourceIconFor (source : String) : String :=
  if source = "はてブ" then "📑"
  else if source = "Hacker News" then "🔶"
  else if source = "Reddit" then "🤖"
  else "📰"

/-- The `summary_parts` loop of `_create_fallback_summary`: each article of
the (already truncated) group becomes a markdown link, with `、` between
consecutive links. -/
def renderLinks : List Article → String
  | [] => ""
  | [a] => "[" ++ a.title ++ "](" ++ a.url ++ ")"
  | a :: b :: rest =>
    "[" ++ a.title ++ "](" ++ a.url ++ ")" ++ "、" ++ renderLinks (b :: rest)

/-- One `source_summaries` entry built by `_create_fallback_summary` from a
group: the summary text renders only the first 10 articles of the group, while
`article_count` is the full group size. -/
def renderSourceGroup (g : String × List Article) : SourceSummary :=
  { source := g.1
    icon := sourceIconFor g.1
    summary := g.1 ++ "からは" ++ toString g.2.length ++ "件の記事があります。主な記事: " ++
      renderLinks (g.2.take 10)
    article_count := g.2.length }

/-- `AISummarizer._create_fallback_summary` (summarizer.py:230-291): sort by
descending score, group by source, render the first 10 per group as a linked
list, with the fixed title, fixed topic tags and the true article count. -/
def createFallbackSummary (articles : List Article) : SummaryDict :=
  { title := some "今日のテックニュースダイジェスト"
    overall_summary := some ("今日は全体で" ++ toString articles.length ++
      "件の記事を収集しました。\n\n主なトピックは、テクノロジー、AI、プログラミングなどです。")
    source_summaries := some ((groupBySource (sortByScoreDesc articles)).map renderSourceGroup)
    key_topics := some [⟨"テクノロジー", "💻"⟩, ⟨"ニュース", "📰"⟩]
    total_articles := some articles.length }

/-- `AISummarizer._parse_summary_response` (summarizer.py:176-228): a JSON
decoding failure or a dict missing `overall_summary` or `source_summaries`
yields the fallback; otherwise the optional keys `title`, `key_topics` and
`total_articles` are filled with their defaults and the dict is returned. -/
def parseSummaryResponse (resp : RawResponse) (originalArticles : List Article) : SummaryDict :=
  match resp with
  | RawResponse.malformed => createFallbackSummary originalArticles
  | RawResponse.parsed r =>
    if r.overall_summary.isNone || r.source_summaries.isNone then
      createFallbackSummary originalArticles
    else
      { r with
        title := some (r.title.getD "今日のテックニュースダイジェスト")
        key_topics := some (r.key_topics.getD [])
        total_articles := some (r.total_articles.getD originalArticles.length) }

/-- `AISummarizer.summarize_articles` (summarizer.py:44-86): the API round
trip sits inside `try/except Exception`, so a raised transport error produces
the fallback summary directly; a received text goes through
`_parse_summary_response`.  Either way the method returns normally.  The
`apiCall` argument models the outcome of `self.client.messages.create` plus
the extraction of `response.content[0].text`. -/
def summarizeArticles (articles : List Article) (apiCall : Except Unit RawResponse) : SummaryDict :=
  match apiCall with
  | Except.error _ => createFallbackSummary articles
  | Except.ok resp => parseSummaryResponse resp articles

/-- The tail of `DigestGenerator.summarize_with_ai` (main.py:166-174): the
`if not result` test on the retry wrapper's value — `none` models the `[]`
returned on exhaustion, and a falsy dict also triggers the fallback. -/
def summarizeWithAIFrom (articles : List Article) (retryResult : Option SummaryDict) : SummaryDict :=
  match retryResult with
  | none => createFallbackSummary articles
  | some s => if dictTruthy s then s else createFallbackSummary articles

/-- `DigestGenerator.summarize_with_ai` (main.py:148-174): the `_summarize`
closure runs `summarize_articles` — which handles its own errors and returns
normally, hence the `Except.ok` — under the retry wrapper; a falsy result is
replaced by the fallback.  `apiResponses` gives the service response of each
attempt.  (The `AISummarizer` constructor's missing-credential error cannot
occur here: `main` exits earlier when the key is absent.) -/
def summarizeWithAI (articles : List Article)
    (apiResponses : Nat → Except Unit RawResponse) : SummaryDict :=
  summarizeWithAIFrom articles
    (retryOperation fun attempt => Except.ok (summarizeArticles articles (apiResponses attempt))).result

/-! ## Source fetchers (`src/fetchers/`) -/

/-- The URL-dedup loop of `HatenaFetcher.fetch_all` (hatena_fetcher.py:189-196):
walk the entries keeping each one whose `url` has not been seen yet. -/
def dedupByUrlAux (seen : List String) : List Article → List Article
  | [] => []
  | e :: es =>
    if e.url ∈ seen then dedupByUrlAux seen es
    else e :: dedupByUrlAux (e.url :: seen) es

/-- URL dedup keeping the first occurrence, with an initially empty
`seen_urls` set. -/
def dedupByUrl (entries : List Article) : List Article :=
  dedupByUrlAux [] entries

/-- `HatenaFetcher.fetch_all` (hatena_fetcher.py:169-198): concatenate the
popular and new batches (each a parameter standing for the parsed RSS
response) and remove duplicate URLs keeping the first occurrence. -/
def hatenaFetchAll (popular newEntries : List Article) : List Article :=
  dedupByUrl (popular ++ newEntries)

/-- `HackerNewsFetcher._fetch_story_details` (hackernews_fetcher.py:57-86):
the worker-pool results are collected in completion order (a parameter, since
`as_completed` yields futures nondeterministically), `None` results are
dropped, and the survivors are stable-sorted by descending score.  No URL
deduplication is performed. -/
def hnFetchStoryDetails (completed : List (Option Article)) : List Article :=
  sortByScoreDesc (completed.filterMap id)

/-! ## Archive manager (`src/archive_manager.py`) -/

/-- Gregorian leap-year rule, as used by Python's `datetime`. -/
def isLeapYear (y : Nat) : Bool :=
  (y % 4 == 0 && y % 100 != 0) || y % 400 == 0

/-- Length of month `m` of year `y`. -/
def daysInMonth (y m : Nat) : Nat :=
  if m = 2 then (if isLeapYear y then 29 else 28)
  else if m = 4 ∨ m = 6 ∨ m = 9 ∨ m = 11 then 30
  else 31

/-- Days in the months of year `y` strictly before month `m`. -/
def daysBeforeMonth (y m : Nat) : Nat :=
  (List.range m).foldl (fun acc i => if 1 ≤ i then acc + daysInMonth y i else acc) 0

/-- Proleptic-Gregorian ordinal of a date, as `datetime.toordinal`:
day number 1 is 0001-01-01. -/
def toDayNumber (y m d : Nat) : Nat :=
  365 * (y - 1) + (y - 1) / 4 - (y - 1) / 100 + (y - 1) / 400 + daysBeforeMonth y m + d

/-- The `datetime` produced by `strptime(date_str, '%Y-%m-%d')`: midnight of
the parsed date, as seconds. -/
def fileDatetime (y m d : Nat) : Int :=
  (toDayNumber y m d : Int) * 86400

/-- String tests and edits are modelled on the character lists underlying the
strings (Lean's position-based `String` primitives do not reduce inside the
kernel; the character-level versions below have the same Python semantics).
This is `startswith`. -/
def strStartsWith (s pre : String) : Bool :=
  pre.data.isPrefixOf s.data

/-- Python's `endswith` on the underlying character list. -/
def strEndsWith (s suf : String) : Bool :=
  suf.data.reverse.isPrefixOf s.data.reverse

/-- Splitting a character list at every `'-'`, the separator structure that
`strptime(s, '%Y-%m-%d')` imposes (its field patterns match digits only, so
every `'-'` of the subject is consumed as a literal separator). -/
def splitOnDash : List Char → List (List Char)
  | [] => [[]]
  | c :: cs =>
    if c = '-' then [] :: splitOnDash cs
    else
      match splitOnDash cs with
      | [] => [[c]]
      | g :: gs => (c :: g) :: gs

/-- Value of a non-empty all-digit character group, `none` otherwise. -/
def digitsToNat : List Char → Option Nat
  | [] => none
  | cs =>
    if cs.all Char.isDigit then
      some (cs.foldl (fun acc c => acc * 10 + (c.toNat - 48)) 0)
    else none

/-- If `pat` is a prefix of the list, the remainder after it. -/
def dropPatternFront (pat : List Char) (s : List Char) : Option (List Char) :=
  match pat, s with
  | [], rest => some rest
  | _ :: _, [] => none
  | p :: ps, c :: cs => if p = c then dropPatternFront ps cs else none

/-- Python's `str.replace(pat, '')`: remove every non-overlapping occurrence
of `pat`, scanning left to right.  `fuel` (instantiated with the length of the
subject) makes the recursion structural. -/
def removePatternAll (pat : List Char) : Nat → List Char → List Char
  | 0, s => s
  | _ + 1, [] => []
  | fuel + 1, c :: cs =>
    match dropPatternFront pat (c :: cs) with
    | some rest => removePatternAll pat fuel rest
    | none => c :: removePatternAll pat fuel cs

/-- The `filename.replace('.html', '')` of `cleanup_old_archives`: removes all
occurrences of `.html`, not only a suffix. -/
def stripHtml (f : String) : String :=
  ⟨removePatternAll ".html".data f.data.length f.data⟩

/-- Model of `datetime.strptime(s, '%Y-%m-%d')`: exactly three `-`-separated
all-digit fields; `%Y` is exactly four digits, `%m` and `%d` one or two
digits; the month, the day (against the month length) and the year
(`datetime` requires `year ≥ 1`) must be in range, else `ValueError`
(modelled as `none`). -/
def parseYmd (s : String) : Option (Nat × Nat × Nat) :=
  match splitOnDash s.data with
  | [ys, ms, ds] =>
    match digitsToNat ys, digitsToNat ms, digitsToNat ds with
    | some y, some m, some d =>
      if ys.length = 4 ∧ ms.length ≤ 2 ∧ ds.length ≤ 2 ∧
          1 ≤ y ∧ 1 ≤ m ∧ m ≤ 12 ∧ 1 ≤ d ∧ d ≤ daysInMonth y m then
        some (y, m, d)
      else none
    | _, _, _ => none
  | _ => none

/-- The `glob.glob(os.path.flatten(archive_dir, "*.html"))` filter on a file
name: the name must end in `.html`, and glob's `*` does not match a leading
dot. -/
def globHtml (f : String) : Bool :=
  strEndsWith f ".html" && !(strStartsWith f ".")

/-- The cutoff `datetime.now() - timedelta(days=keep_days)` of
`cleanup_old_archives`; `now` is the current datetime in seconds. -/
def archiveCutoff (now : Int) (keepDays : Nat) : Int :=
  now - (keepDays : Int) * 86400

/-- Decision taken by the body of the `cleanup_old_archives` loop for one
globbed file name: skipped unless it starts with `'20'`; then
`filename.replace('.html', '')` (all occurrences) is parsed with
`strptime('%Y-%m-%d')` — a `ValueError` is caught and the file skipped — and
the file is removed iff its parsed midnight datetime is strictly before the
cutoff. -/
def archiveDeletes (now : Int) (keepDays : Nat) (f : String) : Bool :=
  globHtml f && strStartsWith f "20" &&
    (match parseYmd (stripHtml f) with
     | some (y, m, d) => decide (fileDatetime y m d < archiveCutoff now keepDays)
     | none => false)

/-- Result of one `cleanup_old_archives` run over the archive directory. -/
structure CleanupResult where
  remaining : List String
  removedCount : Nat
  deriving Repr, DecidableEq

/-- The loop of `cleanup_old_archives`, over the file names of the archive
directory: deleted files leave the directory and bump `removed_count`. -/
def cleanupLoop (now : Int) (keepDays : Nat) : List String → CleanupResult
  | [] => ⟨[], 0⟩
  | f :: fs =>
    let rest := cleanupLoop now keepDays fs
    if archiveDeletes now keepDays f then ⟨rest.remaining, rest.removedCount + 1⟩
    else ⟨f :: rest.remaining, rest.removedCount⟩

/-- `ArchiveManager.cleanup_old_archives` (archive_manager.py:52-80), acting
on the list of file names in the archive directory.  The function is total:
parse failures are caught (`except (ValueError, OSError)`) and never abort the
scan. -/
def cleanupOldArchives (now : Int) (keepDays : Nat) (dir : List String) : CleanupResult :=
  cleanupLoop now keepDays dir

/-! ## Entry point (`main.py`) -/

/-- Outcome of `DigestGenerator.generate` (main.py:225-273). -/
inductive GenerateOutcome
  | abortedNoArticles
  | fatalError
  | success
  deriving Repr, DecidableEq

/-- Observable trace of one `generate()` call: its outcome and the summary it
computed — `none` when the run aborted before the summarization step. -/
structure GenerateTrace where
  outcome : GenerateOutcome
  summary : Option SummaryDict
  deriving Repr, DecidableEq

/-- `DigestGenerator.generate`: fetch with retry; an empty combined list
aborts the run (`return False`) before summarization; otherwise summarize
(total, never raises in the model — see `summarizeWithAI`), then render and
archive, whose I/O may raise — `renderArchiveRaises` models any exception
from steps 3-4, which the surrounding `except` turns into `return False`. -/
def generateRun (cfg : SourcesConfig)
    (hatenaOp hackernewsOp redditOp : Nat → Except Unit (List Article))
    (apiResponses : Nat → Except Unit RawResponse)
    (renderArchiveRaises : Bool) : GenerateTrace :=
  let articles := fetchArticlesWithRetry cfg hatenaOp hackernewsOp redditOp
  if articles.isEmpty then ⟨GenerateOutcome.abortedNoArticles, none⟩
  else
    let s := summarizeWithAI articles apiResponses
    if renderArchiveRaises then ⟨GenerateOutcome.fatalError, some s⟩
    else ⟨GenerateOutcome.success, some s⟩

/-- The boolean `generate()` returns: `True` only for a fully successful
run. -/
def generateReturns : GenerateOutcome → Bool
  | GenerateOutcome.success => true
  | _ => false

/-- `main()` (main.py:276-308): exit 1 when `ANTHROPIC_API_KEY` is absent;
`interrupted` models a `KeyboardInterrupt` (caught at top level, exit 1);
`startupRaises` models any exception before/outside `generate()` — e.g. a
configuration-load failure — caught by the outer `except Exception` (exit 1);
otherwise `sys.exit(0 if success else 1)` on `generate()`'s boolean. -/
def mainExitCode (anthropicKeySet interrupted startupRaises : Bool)
    (cfg : SourcesConfig)
    (hatenaOp hackernewsOp redditOp : Nat → Except Unit (List Article))
    (apiResponses : Nat → Except Unit RawResponse)
    (renderArchiveRaises : Bool) : Nat :=
  if !anthropicKeySet then 1
  else if interrupted then 1
  else if startupRaises then 1
  else if generateReturns (generateRun cfg hatenaOp hackernewsOp redditOp
      apiResponses renderArchiveRaises).outcome then 0
  else 1

/-! ## Helper lemmas for the retry wrapper -/

theorem retryLoop_ok {α} {op : Nat → Except Unit α} {a : α} {attempt : Nat}
    (h : op attempt = Except.ok a) (delay m fuel : Nat) :
    retryLoop op delay m attempt (fuel + 1) = ⟨some a, 1, 0⟩ := by
  simp [retryLoop, h]

theorem retryLoop_err_lt {α} {op : Nat → Except Unit α} {attempt m : Nat}
    (h : op attempt = Except.error ()) (hlt : attempt < m) (delay fuel : Nat) :
    retryLoop op delay m attempt (fuel + 1) =
      ⟨(retryLoop op delay m (attempt + 1) fuel).result,
       (retryLoop op delay m (attempt + 1) fuel).attempts + 1,
       (retryLoop op delay m (attempt + 1) fuel).totalSleep + delay * 2 ^ (attempt - 1)⟩ := by
  simp [retryLoop, h, hlt]

theorem retryLoop_err_last {α} {op : Nat → Except Unit α} {attempt m : Nat}
    (h : op attempt = Except.error ()) (hge : ¬ attempt < m) (delay fuel : Nat) :
    retryLoop op delay m attempt (fuel + 1) =
      ⟨(retryLoop op delay m (attempt + 1) fuel).result,
       (retryLoop op delay m (attempt + 1) fuel).attempts + 1,
       (retryLoop op delay m (attempt + 1) fuel).totalSleep⟩ := by
  simp [retryLoop, h, hge]

/-- Shared characterization: if attempts `1..k` raise and attempt `k+1`
succeeds with `v` (with `k + 1` within the three allowed attempts), the
wrapper stops at attempt `k+1` with value `v`, having slept
`delay·2^(i-1)` after each failed attempt `i`. -/
theorem retry_first_success {α} (op : Nat → Except Unit α) (v : α) (k : Nat)
    (hk : k < 3) (hfail : ∀ i, 1 ≤ i → i ≤ k → op i = Except.error ())
    (hsucc : op (k + 1) = Except.ok v) :
    retryOperation op =
      ⟨some v, k + 1, ∑ i ∈ Finset.Icc 1 k, retryDelay * 2 ^ (i - 1)⟩ := by
  interval_cases k
  · show retryLoop op 5 3 1 (2 + 1) = _
    rw [retryLoop_ok hsucc]
    refine congrArg (RetryOutcome.mk (some v) 1) ?_
    decide
  · have h1 : op 1 = Except.error () := hfail 1 (by norm_num) (by norm_num)
    show retryLoop op 5 3 1 (2 + 1) = _
    rw [retryLoop_err_lt h1 (by norm_num), retryLoop_ok hsucc]
    refine congrArg (RetryOutcome.mk (some v) 2) ?_
    simp
    decide
  · have h1 : op 1 = Except.error () := hfail 1 (by norm_num) (by norm_num)
    have h2 : op 2 = Except.error () := hfail 2 (by norm_num) (by norm_num)
    show retryLoop op 5 3 1 (2 + 1) = _
    rw [retryLoop_err_lt h1 (by norm_num), retryLoop_err_lt h2 (by norm_num),
      retryLoop_ok hsucc]
    refine congrArg (RetryOutcome.mk (some v) 3) ?_
    simp
    decide

/-- Shared characterization: if every attempt raises, the wrapper makes
exactly three attempts, sleeps after the first two, and falls through to
`return []`. -/
theorem retry_all_fail {α} (op : Nat → Except Unit α)
    (hfail : ∀ i, op i = Except.error ()) :
    retryOperation op = ⟨none, 3, 15⟩ := by
  show retryLoop op 5 3 1 (2 + 1) = _
  rw [retryLoop_err_lt (hfail 1) (by norm_num), retryLoop_err_lt (hfail 2) (by norm_num),
    retryLoop_err_last (hfail 3) (by norm_num)]
  simp [retryLoop]

/-! ## C1 and C2: the retry wrapper's success and exhaustion behaviour -/

/-- C1: an operation that raises on its first `k` attempts (`k < max_retries`)
and returns a result on attempt `k+1` makes the wrapper return that result,
with the total suspended time equal to `Σ_(i=1..k) base_delay·2^(i-1)`
(`max_retries = 3`, `base_delay = 5`) — sleeping only between attempts, never
after the success. -/
theorem c1_retry_backoff {α} (op : Nat → Except Unit α) (v : α) (k : Nat)
    (hk : k < maxRetries) (hfail : ∀ i, 1 ≤ i → i ≤ k → op i = Except.error ())
    (hsucc : op (k + 1) = Except.ok v) :
    (retryOperation op).result = some v ∧ (retryOperation op).attempts = k + 1 ∧
      (retryOperation op).totalSleep = ∑ i ∈ Finset.Icc 1 k, retryDelay * 2 ^ (i - 1) := by
  rw [retry_first_success op v k hk hfail hsucc]
  exact ⟨rfl, rfl, rfl⟩

/-- Witness for C1 at `k = 1`: fails once, succeeds on the second attempt. -/
theorem c1_retry_backoff_witness :
    (retryOperation fun i =>
        if i = 1 then Except.error () else Except.ok [(⟨"はてブ", "A", "https://a", 3, "3 users"⟩ : Article)]).result =
        some [(⟨"はてブ", "A", "https://a", 3, "3 users"⟩ : Article)] ∧
      (retryOperation fun i =>
        if i = 1 then Except.error () else Except.ok [(⟨"はてブ", "A", "https://a", 3, "3 users"⟩ : Article)]).attempts = 2 ∧
      (retryOperation fun i =>
        if i = 1 then Except.error () else Except.ok [(⟨"はてブ", "A", "https://a", 3, "3 users"⟩ : Article)]).totalSleep =
        ∑ i ∈ Finset.Icc 1 1, retryDelay * 2 ^ (i - 1) :=
  c1_retry_backoff _ _ 1 (by decide)
    (fun i h1 h2 => by
      have h : i = 1 := Nat.le_antisymm h2 h1
      subst h
      rfl)
    rfl

/-- C2: an operation that raises on every invocation is attempted exactly
`max_retries` times; the wrapper raises nothing itself (it is a total
function) and returns the empty list, so the source contributes zero
articles. -/
theorem c2_retry_exhaustion (op : Nat → Except Unit (List Article))
    (hfail : ∀ i, op i = Except.error ()) :
    (retryOperation op).attempts = maxRetries ∧ (retryOperation op).result = none ∧
      retryFetch op = [] := by
  rw [show maxRetries = 3 from rfl, retryFetch, retry_all_fail op hfail]
  exact ⟨rfl, rfl, rfl⟩

/-- Witness for C2: the everywhere-failing operation. -/
theorem c2_retry_exhaustion_witness :
    (retryOperation fun _ => (Except.error () : Except Unit (List Article))).attempts = maxRetries ∧
      (retryOperation fun _ => (Except.error () : Except Unit (List Article))).result = none ∧
      retryFetch (fun _ => Except.error ()) = [] :=
  c2_retry_exhaustion _ fun _ => rfl

/-! ## C10: the success criterion is only "does not raise" -/

/-- C10: the wrapper's success criterion is solely that the call does not
raise — the first non-raising attempt `j` ends the loop, its value (even an
empty list) is returned unchanged, no further attempt is made and no sleep
follows it; and `summarize_with_ai` substitutes the local fallback exactly
when the wrapper's value is empty (`none`, the exhaustion `[]`) or a falsy
dict. -/
theorem c10_success_is_no_raise :
    (∀ (α : Type) (op : Nat → Except Unit α) (j : Nat) (v : α),
      1 ≤ j → j ≤ maxRetries → (∀ i, 1 ≤ i → i < j → op i = Except.error ()) →
      op j = Except.ok v →
      (retryOperation op).result = some v ∧ (retryOperation op).attempts = j ∧
        (retryOperation op).totalSleep =
          ∑ i ∈ Finset.Icc 1 (j - 1), retryDelay * 2 ^ (i - 1)) ∧
    (∀ (articles : List Article) (r : Option SummaryDict),
      (r = none ∨ ∃ s, r = some s ∧ dictTruthy s = false) →
      summarizeWithAIFrom articles r = createFallbackSummary articles) := by
  constructor
  · intro α op j v hj hjm hfail hsucc
    obtain ⟨k, rfl⟩ : ∃ k, j = k + 1 := ⟨j - 1, by omega⟩
    have hk : k < 3 := by
      have : maxRetries = 3 := rfl
      omega
    rw [retry_first_success op v k hk (fun i h1 h2 => hfail i h1 (by omega)) hsucc]
    exact ⟨rfl, rfl, by simp⟩
  · intro articles r hr
    rcases hr with rfl | ⟨s, rfl, hs⟩
    · rfl
    · simp [summarizeWithAIFrom, hs]

/-- Witness for C10: a first attempt successfully returning the empty list is
final (no retry, no sleep), and a falsy retry result makes
`summarize_with_ai` fall back. -/
theorem c10_success_is_no_raise_witness :
    ((retryOperation fun _ => (Except.ok [] : Except Unit (List Article))).result = some [] ∧
      (retryOperation fun _ => (Except.ok [] : Except Unit (List Article))).attempts = 1 ∧
      (retryOperation fun _ => (Except.ok [] : Except Unit (List Article))).totalSleep =
        ∑ i ∈ Finset.Icc 1 0, retryDelay * 2 ^ (i - 1)) ∧
    summarizeWithAIFrom [] (some ⟨none, none, none, none, none⟩) =
      createFallbackSummary [] :=
  ⟨c10_success_is_no_raise.1 (List Article) _ 1 [] (le_refl 1) (by decide)
      (fun i h1 h2 => absurd h2 (by omega)) rfl,
    c10_success_is_no_raise.2 [] (some ⟨none, none, none, none, none⟩)
      (Or.inr ⟨_, rfl, rfl⟩)⟩

/-! ## C3 and C4: malformed summarization responses -/

/-- A response that the spec's failure taxonomy calls malformed or
schema-violating: undecodable JSON, or a decoded dict missing a
schema-required field (`overall_summary` or `source_summaries`). -/
def malformedOrInvalid (r : RawResponse) : Prop :=
  r = RawResponse.malformed ∨
    ∃ d, r = RawResponse.parsed d ∧ (d.overall_summary = none ∨ d.source_summaries = none)

/-- An attempt the spec counts as failed: a raised transport error, or a
malformed / schema-violating response. -/
def attemptFailsPerSpec (e : Except Unit RawResponse) : Prop :=
  e = Except.error () ∨ ∃ r, e = Except.ok r ∧ malformedOrInvalid r

theorem parse_bad_eq_fallback {r : RawResponse} (articles : List Article)
    (h : malformedOrInvalid r) :
    parseSummaryResponse r articles = createFallbackSummary articles := by
  rcases h with rfl | ⟨d, rfl, hd | hd⟩
  · rfl
  · simp [parseSummaryResponse, hd]
  · simp [parseSummaryResponse, hd]

theorem summarizeArticles_bad_eq_fallback {e : Except Unit RawResponse}
    (articles : List Article) (h : attemptFailsPerSpec e) :
    summarizeArticles articles e = createFallbackSummary articles := by
  rcases h with rfl | ⟨r, rfl, hr⟩
  · rfl
  · exact parse_bad_eq_fallback articles hr

theorem retryOperation_ok_first {α} {op : Nat → Except Unit α} {a : α}
    (h : op 1 = Except.ok a) : retryOperation op = ⟨some a, 1, 0⟩ := by
  show retryLoop op 5 3 1 (2 + 1) = _
  exact retryLoop_ok h 5 3 2

theorem summarizeWithAI_first (articles : List Article)
    (responses : Nat → Except Unit RawResponse) :
    summarizeWithAI articles responses =
      summarizeWithAIFrom articles (some (summarizeArticles articles (responses 1))) := by
  unfold summarizeWithAI
  rw [@retryOperation_ok_first _
    (fun attempt => Except.ok (summarizeArticles articles (responses attempt))) _ rfl]

theorem dictTruthy_fallback (articles : List Article) :
    dictTruthy (createFallbackSummary articles) = true := rfl

/-- Article list used in the concrete summarization scenarios. -/
def c3Articles : List Article :=
  [⟨"はてブ", "記事A", "https://a.example", 3, "3 users"⟩]

/-- Counterexample to C3: with a malformed JSON response on the (single)
round trip, the operation wrapped by `_retry_operation` does **not** raise —
`summarize_articles` catches the parse failure internally and returns the
fallback summary — so the wrapper counts exactly one attempt and records it
as a success, instead of incrementing the retry count as the claim states. -/
theorem c3_counterexample :
    (retryOperation fun attempt =>
        Except.ok (summarizeArticles c3Articles
          ((fun _ => Except.ok RawResponse.malformed) attempt))).attempts = 1 ∧
      (retryOperation fun attempt =>
        Except.ok (summarizeArticles c3Articles
          ((fun _ => Except.ok RawResponse.malformed) attempt))).result =
        some (createFallbackSummary c3Articles) ∧
      summarizeWithAI c3Articles (fun _ => Except.ok RawResponse.malformed) =
        createFallbackSummary c3Articles :=
  ⟨rfl, rfl, rfl⟩

/-- C3 (amended): a summarization attempt whose response is malformed JSON or
lacks a schema-required field does **not** count toward the retry limit:
exactly like a raised transport error, it is caught inside
`summarize_articles`, which returns the deterministic fallback summary; the
retry wrapper therefore records the first attempt as a success and performs
no retry, and the malformed output itself is not passed downstream — the
fallback is. -/
theorem c3_malformed_caught_not_retried (articles : List Article)
    (responses : Nat → Except Unit RawResponse)
    (h : attemptFailsPerSpec (responses 1)) :
    summarizeArticles articles (responses 1) = createFallbackSummary articles ∧
      (retryOperation fun attempt =>
        Except.ok (summarizeArticles articles (responses attempt))).attempts = 1 ∧
      (retryOperation fun attempt =>
        Except.ok (summarizeArticles articles (responses attempt))).result =
        some (createFallbackSummary articles) ∧
      summarizeWithAI articles responses = createFallbackSummary articles := by
  have h1 := summarizeArticles_bad_eq_fallback articles h
  have hop := @retryOperation_ok_first _
    (fun attempt => Except.ok (summarizeArticles articles (responses attempt))) _ rfl
  refine ⟨h1, ?_, ?_, ?_⟩
  · rw [hop]
  · rw [hop, h1]
  · rw [summarizeWithAI_first, h1]
    simp [summarizeWithAIFrom, dictTruthy_fallback]

/-- Witness for the amended C3, at a transport error on the first attempt. -/
theorem c3_malformed_caught_not_retried_witness :
    summarizeWithAI c3Articles (fun _ => Except.error ()) =
      createFallbackSummary c3Articles :=
  (c3_malformed_caught_not_retried c3Articles (fun _ => Except.error ())
    (Or.inl rfl)).2.2.2

/-- C4: for a non-empty article list, if every attempt's response is
malformed or schema-violating, the summary returned by the summarization
stage still carries all five schema fields (non-null) and its
`total_articles` equals the input length. -/
theorem c4_fallback_schema (articles : List Article)
    (responses : Nat → Except Unit RawResponse) (hne : articles ≠ [])
    (hbad : ∀ i, ∃ r, responses i = Except.ok r ∧ malformedOrInvalid r) :
    (summarizeWithAI articles responses).title.isSome = true ∧
      (summarizeWithAI articles responses).overall_summary.isSome = true ∧
      (summarizeWithAI articles responses).source_summaries.isSome = true ∧
      (summarizeWithAI articles responses).key_topics.isSome = true ∧
      (summarizeWithAI articles responses).total_articles = some articles.length := by
  obtain ⟨r, hr, hbad1⟩ := hbad 1
  have h1 : summarizeArticles articles (responses 1) = createFallbackSummary articles :=
    summarizeArticles_bad_eq_fallback articles (Or.inr ⟨r, hr, hbad1⟩)
  rw [summarizeWithAI_first, h1]
  simp [summarizeWithAIFrom, dictTruthy_fallback, createFallbackSummary]

/-- Witness for C4: one article, every response malformed. -/
theorem c4_fallback_schema_witness :
    (summarizeWithAI c3Articles (fun _ => Except.ok RawResponse.malformed)).title.isSome = true ∧
      (summarizeWithAI c3Articles (fun _ => Except.ok RawResponse.malformed)).overall_summary.isSome = true ∧
      (summarizeWithAI c3Articles (fun _ => Except.ok RawResponse.malformed)).source_summaries.isSome = true ∧
      (summarizeWithAI c3Articles (fun _ => Except.ok RawResponse.malformed)).key_topics.isSome = true ∧
      (summarizeWithAI c3Articles (fun _ => Except.ok RawResponse.malformed)).total_articles =
        some c3Articles.length :=
  c4_fallback_schema c3Articles (fun _ => Except.ok RawResponse.malformed)
    (by simp [c3Articles]) (fun i => ⟨RawResponse.malformed, rfl, Or.inl rfl⟩)

/-! ## C9: structure of the local fallback summary -/

theorem insertByScoreDesc_perm (a : Article) (l : List Article) :
    List.Perm (insertByScoreDesc a l) (a :: l) := by
  induction l with
  | nil => exact List.Perm.refl _
  | cons b bs ih =>
    by_cases h : a.score < b.score
    · simp only [insertByScoreDesc, if_pos h]
      exact List.Perm.trans (ih.cons b) (List.Perm.swap a b bs)
    · simp only [insertByScoreDesc, if_neg h]
      exact List.Perm.refl _

theorem sortByScoreDesc_perm (l : List Article) :
    List.Perm (sortByScoreDesc l) l := by
  induction l with
  | nil => exact List.Perm.refl _
  | cons a as ih =>
    exact List.Perm.trans (insertByScoreDesc_perm a (sortByScoreDesc as)) (ih.cons a)

theorem insertByScoreDesc_pairwise (a : Article) (l : List Article)
    (h : l.Pairwise fun x y => y.score ≤ x.score) :
    (insertByScoreDesc a l).Pairwise fun x y => y.score ≤ x.score := by
  induction l with
  | nil => simp [insertByScoreDesc]
  | cons b bs ih =>
    rw [List.pairwise_cons] at h
    obtain ⟨hb, hbs⟩ := h
    by_cases hab : a.score < b.score
    · simp only [insertByScoreDesc, if_pos hab]
      rw [List.pairwise_cons]
      refine ⟨?_, ih hbs⟩
      intro c hc
      rcases List.mem_cons.mp ((insertByScoreDesc_perm a bs).mem_iff.mp hc) with rfl | hcbs
      · exact le_of_lt hab
      · exact hb c hcbs
    · simp only [insertByScoreDesc, if_neg hab]
      rw [List.pairwise_cons]
      refine ⟨?_, List.pairwise_cons.mpr ⟨hb, hbs⟩⟩
      intro c hc
      rcases List.mem_cons.mp hc with rfl | hcbs
      · exact le_of_not_lt hab
      · exact le_trans (hb c hcbs) (le_of_not_lt hab)

theorem sortByScoreDesc_sorted (l : List Article) :
    (sortByScoreDesc l).Pairwise fun x y => y.score ≤ x.score := by
  induction l with
  | nil => simp [sortByScoreDesc]
  | cons a as ih => exact insertByScoreDesc_pairwise a (sortByScoreDesc as) ih

theorem insertGroup_sources (groups : List (String × List Article)) (a : Article)
    (h : ∀ p ∈ groups, ∀ x ∈ p.2, x.source = p.1) :
    ∀ p ∈ insertGroup groups a, ∀ x ∈ p.2, x.source = p.1 := by
  induction groups with
  | nil =>
    intro p hp x hx
    simp only [insertGroup, List.mem_singleton] at hp
    subst hp
    simp only [List.mem_singleton] at hx
    subst hx
    rfl
  | cons g rest ih =>
    obtain ⟨s, grp⟩ := g
    by_cases hs : s = a.source
    · simp only [insertGroup, if_pos hs]
      intro p hp x hx
      rcases List.mem_cons.mp hp with rfl | hp
      · rcases List.mem_append.mp hx with hx | hx
        · exact h (s, grp) (List.mem_cons_self _ _) x hx
        · simp only [List.mem_singleton] at hx
          subst hx
          exact hs.symm
      · exact h p (List.mem_cons_of_mem _ hp) x hx
    · simp only [insertGroup, if_neg hs]
      intro p hp x hx
      rcases List.mem_cons.mp hp with rfl | hp
      · exact h (s, grp) (List.mem_cons_self _ _) x hx
      · exact ih (fun q hq => h q (List.mem_cons_of_mem _ hq)) p hp x hx

theorem groupBySource_sources (l : List Article) :
    ∀ p ∈ groupBySource l, ∀ x ∈ p.2, x.source = p.1 := by
  suffices h : ∀ (acc : List (String × List Article)),
      (∀ p ∈ acc, ∀ x ∈ p.2, x.source = p.1) →
      ∀ p ∈ l.foldl insertGroup acc, ∀ x ∈ p.2, x.source = p.1 by
    exact h [] (by simp)
  induction l with
  | nil => intro acc hacc; simpa using hacc
  | cons a as ih =>
    intro acc hacc
    exact ih (insertGroup acc a) (insertGroup_sources acc a hacc)

theorem insertGroup_join_perm (groups : List (String × List Article)) (a : Article) :
    List.Perm ((insertGroup groups a).map Prod.snd).flatten
      (((groups.map Prod.snd).flatten) ++ [a]) := by
  induction groups with
  | nil => simp [insertGroup]
  | cons g rest ih =>
    obtain ⟨s, grp⟩ := g
    by_cases hs : s = a.source
    · simp only [insertGroup, if_pos hs, List.map_cons, List.flatten_cons, List.append_assoc]
      exact List.Perm.append_left grp
        (by simpa using (@List.perm_append_comm _ [a] ((rest.map Prod.snd).flatten)))
    · simp only [insertGroup, if_neg hs, List.map_cons, List.flatten_cons, List.append_assoc]
      exact List.Perm.append_left grp ih

theorem groupBySource_join_perm (l : List Article) :
    List.Perm ((groupBySource l).map Prod.snd).flatten l := by
  suffices h : ∀ (acc : List (String × List Article)),
      List.Perm ((l.foldl insertGroup acc).map Prod.snd).flatten
        (((acc.map Prod.snd).flatten) ++ l) by
    simpa using h []
  induction l with
  | nil => intro acc; simp
  | cons a as ih =>
    intro acc
    refine List.Perm.trans (ih (insertGroup acc a)) ?_
    have := (insertGroup_join_perm acc a).append_right as
    simpa using this

/-- C9: the local fallback summary is built from the articles stable-sorted in
descending score order (a permutation of the input, pairwise descending), then
grouped by source (each group holds exactly the articles of its source, and
the groups jointly are a permutation of the sorted list), each group rendered
with its first 10 articles as a `、`-separated markdown link list, under the
fixed generic title and the fixed topic-tag pair. -/
theorem c9_fallback_construction (articles : List Article) :
    (createFallbackSummary articles).title = some "今日のテックニュースダイジェスト" ∧
      (createFallbackSummary articles).key_topics =
        some [⟨"テクノロジー", "💻"⟩, ⟨"ニュース", "📰"⟩] ∧
      (createFallbackSummary articles).source_summaries =
        some ((groupBySource (sortByScoreDesc articles)).map renderSourceGroup) ∧
      List.Perm (sortByScoreDesc articles) articles ∧
      ((sortByScoreDesc articles).Pairwise fun x y => y.score ≤ x.score) ∧
      List.Perm ((groupBySource (sortByScoreDesc articles)).map Prod.snd).flatten
        (sortByScoreDesc articles) ∧
      (∀ p ∈ groupBySource (sortByScoreDesc articles), ∀ x ∈ p.2, x.source = p.1) ∧
      (∀ g : String × List Article, (renderSourceGroup g).summary =
        g.1 ++ "からは" ++ toString g.2.length ++ "件の記事があります。主な記事: " ++
          renderLinks (g.2.take 10)) :=
  ⟨rfl, rfl, rfl, sortByScoreDesc_perm articles, sortByScoreDesc_sorted articles,
    groupBySource_join_perm (sortByScoreDesc articles),
    groupBySource_sources (sortByScoreDesc articles), fun _ => rfl⟩

/-- Witness for C9 on a concrete three-article list spanning two sources. -/
theorem c9_fallback_construction_witness :
    (createFallbackSummary
        [⟨"はてブ", "A", "https://a", 3, "3 users"⟩,
         ⟨"Hacker News", "B", "https://b", 5, "5 points"⟩,
         ⟨"はてブ", "C", "https://c", 9, "9 users"⟩]).title =
      some "今日のテックニュースダイジェスト" :=
  (c9_fallback_construction
    [⟨"はてブ", "A", "https://a", 3, "3 users"⟩,
     ⟨"Hacker News", "B", "https://b", 5, "5 points"⟩,
     ⟨"はてブ", "C", "https://c", 9, "9 users"⟩]).1

/-! ## C6: URL deduplication in the fetch stage -/

theorem dedupByUrlAux_mem (l : List Article) : ∀ (seen : List String) (a : Article),
    a ∈ dedupByUrlAux seen l ↔
      (a.url ∉ seen ∧ l.find? (fun b => b.url == a.url) = some a) := by
  induction l with
  | nil =>
    intro seen a
    simp [dedupByUrlAux]
  | cons e es ih =>
    intro seen a
    by_cases he : e.url ∈ seen
    · simp only [dedupByUrlAux, if_pos he]
      rw [ih seen a]
      by_cases heq : e.url = a.url
      · have ha : a.url ∈ seen := heq ▸ he
        simp [ha]
      · rw [List.find?_cons_of_neg]
        simp [heq]
    · simp only [dedupByUrlAux, if_neg he]
      by_cases heq : e.url = a.url
      · rw [List.find?_cons_of_pos _ (by simp [heq])]
        constructor
        · intro hmem
          rcases List.mem_cons.mp hmem with rfl | hmem
          · exact ⟨he, rfl⟩
          · obtain ⟨hnot, -⟩ := (ih (e.url :: seen) a).mp hmem
            exact absurd (by rw [← heq]; exact List.mem_cons_self _ _) hnot
        · rintro ⟨hnot, hsome⟩
          exact List.mem_cons.mpr (Or.inl (Option.some.inj hsome).symm)
      · rw [List.find?_cons_of_neg _ (by simp [heq])]
        rw [List.mem_cons, ih (e.url :: seen) a]
        constructor
        · rintro (rfl | ⟨hnot, hfind⟩)
          · exact absurd rfl heq
          · exact ⟨fun hc => hnot (List.mem_cons_of_mem _ hc), hfind⟩
        · rintro ⟨hnot, hfind⟩
          refine Or.inr ⟨fun hc => ?_, hfind⟩
          rcases List.mem_cons.mp hc with h1 | h1
          · exact heq h1.symm
          · exact hnot h1

/-- Hacker News stories used in the duplicate-URL scenario: distinct articles
sharing one URL. -/
def hnDupA : Article := ⟨"Hacker News", "Title A", "https://example.com/x", 10, "10 points"⟩

/-- Second story with the same URL but another title and score. -/
def hnDupB : Article := ⟨"Hacker News", "Title B", "https://example.com/x", 20, "20 points"⟩

/-- Counterexample to C6: the claim's per-source URL deduplication does not
happen for the Hacker News fetcher.  With only Hacker News enabled and a batch
holding two stories that share a URL but differ in title, the combined list
produced by the fetch stage keeps **both** (sorted by descending score), not
only the first-seen one. -/
theorem c6_counterexample :
    fetchArticlesWithRetry ⟨false, true, false⟩ (fun _ => Except.ok [])
        (fun _ => Except.ok (hnFetchStoryDetails [some hnDupA, some hnDupB]))
        (fun _ => Except.ok []) = [hnDupB, hnDupA] ∧
      hnDupA.url = hnDupB.url ∧ hnDupA ≠ hnDupB := by
  refine ⟨by decide, rfl, by decide⟩

/-- C6 (amended): only the Hatena fetcher deduplicates by URL, over its
combined popular+new batch: an article is in `fetch_all`'s output exactly when
it is the first entry of the concatenated batch carrying its URL (so of two
same-URL articles, only the first-seen survives).  The Hacker News and Reddit
fetchers do not deduplicate by URL (see the C6 counterexample). -/
theorem c6_hatena_dedup (popular newEntries : List Article) (a : Article) :
    a ∈ hatenaFetchAll popular newEntries ↔
      (popular ++ newEntries).find? (fun b => b.url == a.url) = some a := by
  have h := dedupByUrlAux_mem (popular ++ newEntries) [] a
  simpa [hatenaFetchAll, dedupByUrl] using h

/-- Hatena entries used in the dedup scenario: two same-URL articles. -/
def hatenaDupA : Article := ⟨"はてブ", "タイトルA", "https://example.com/y", 5, "5 users"⟩

/-- Second Hatena entry with the same URL. -/
def hatenaDupB : Article := ⟨"はてブ", "タイトルB", "https://example.com/y", 7, "7 users"⟩

/-- Witness for the amended C6: of two same-URL Hatena entries, `fetch_all`
keeps the first and drops the second. -/
theorem c6_hatena_dedup_witness :
    hatenaDupA ∈ hatenaFetchAll [hatenaDupA] [hatenaDupB] ∧
      hatenaDupB ∉ hatenaFetchAll [hatenaDupA] [hatenaDupB] :=
  ⟨(c6_hatena_dedup [hatenaDupA] [hatenaDupB] hatenaDupA).mpr (by decide),
    fun hmem =>
      absurd ((c6_hatena_dedup [hatenaDupA] [hatenaDupB] hatenaDupB).mp hmem) (by decide)⟩

/-! ## C7 and C8: archive cleanup -/

theorem cleanupLoop_spec (now : Int) (keepDays : Nat) (dir : List String) :
    (cleanupLoop now keepDays dir).remaining =
        dir.filter (fun f => !(archiveDeletes now keepDays f)) ∧
      (cleanupLoop now keepDays dir).removedCount =
        (dir.filter (fun f => archiveDeletes now keepDays f)).length := by
  induction dir with
  | nil => exact ⟨rfl, rfl⟩
  | cons f fs ih =>
    simp only [cleanupLoop]
    by_cases hf : archiveDeletes now keepDays f
    · simp [hf, ih.1, ih.2, List.filter_cons]
    · simp [hf, ih.1, ih.2, List.filter_cons]

theorem filter_idem_aux (p : String → Bool) (l : List String) :
    (l.filter p).filter p = l.filter p := by
  induction l with
  | nil => rfl
  | cons a l ih => by_cases h : p a <;> simp [List.filter_cons, h, ih]

theorem filter_neg_filter_aux (p : String → Bool) (l : List String) :
    (l.filter fun a => !(p a)).filter p = [] := by
  induction l with
  | nil => rfl
  | cons a l ih => by_cases h : p a <;> simp [List.filter_cons, h, ih]

/-- C7: one cleanup run deletes a scanned file exactly when it matches the
glob `*.html`, starts with `20`, its name (with every `.html` removed) parses
as a `%Y-%m-%d` date, and that date — as a midnight datetime — is strictly
older than `now − keep_days`; in particular a file whose name fails date
parsing is never deleted, and the parse failure is non-fatal (the model is a
total function over the whole directory). -/
theorem c7_cleanup_deletes_exactly (now : Int) (keepDays : Nat) (dir : List String)
    (f : String) (hf : f ∈ dir) :
    f ∉ (cleanupOldArchives now keepDays dir).remaining ↔
      (globHtml f = true ∧ strStartsWith f "20" = true ∧
        ∃ y m d, parseYmd (stripHtml f) = some (y, m, d) ∧
          fileDatetime y m d < now - (keepDays : Int) * 86400) := by
  have hrem := (cleanupLoop_spec now keepDays dir).1
  constructor
  · intro hnot
    have hdel : archiveDeletes now keepDays f = true := by
      by_contra hc
      refine hnot ?_
      rw [show (cleanupOldArchives now keepDays dir).remaining =
        dir.filter (fun g => !(archiveDeletes now keepDays g)) from hrem]
      exact List.mem_filter.mpr ⟨hf, by simp [Bool.not_eq_true] at hc ⊢; exact hc⟩
    simp only [archiveDeletes, Bool.and_eq_true] at hdel
    obtain ⟨⟨hg, hs⟩, hmatch⟩ := hdel
    rcases hp : parseYmd (stripHtml f) with - | ⟨y, m, d⟩
    · rw [hp] at hmatch
      exact absurd hmatch (by simp)
    · rw [hp] at hmatch
      refine ⟨hg, hs, y, m, d, rfl, ?_⟩
      have := of_decide_eq_true hmatch
      simpa [archiveCutoff] using this
  · rintro ⟨hg, hs, y, m, d, hp, hlt⟩
    have hdel : archiveDeletes now keepDays f = true := by
      simp only [archiveDeletes, hp, Bool.and_eq_true]
      exact ⟨⟨hg, hs⟩, decide_eq_true (by simpa [archiveCutoff] using hlt)⟩
    intro hmem
    rw [show (cleanupOldArchives now keepDays dir).remaining =
      dir.filter (fun g => !(archiveDeletes now keepDays g)) from hrem] at hmem
    have := (List.mem_filter.mp hmem).2
    rw [hdel] at this
    exact absurd this (by simp)

/-- Current datetime of the concrete cleanup scenario: 2026-10-12 12:00. -/
def demoNow : Int := fileDatetime 2026 10 12 + 43200

/-- Archive directory of the concrete cleanup scenario: entries dated
`today−200d` and `today−10d`, plus an unparsable `.html` name. -/
def demoArchive : List String := ["2026-03-26.html", "2026-10-02.html", "oldstyle.html"]

/-- Witness for C7 with `keep_days = 90`: the `today−200d` entry is deleted,
the `today−10d` entry survives (and the unparsable name is untouched by the
parse-failure clause of the theorem). -/
theorem c7_cleanup_deletes_exactly_witness :
    "2026-03-26.html" ∉ (cleanupOldArchives demoNow 90 demoArchive).remaining ∧
      ¬ ("2026-10-02.html" ∉ (cleanupOldArchives demoNow 90 demoArchive).remaining) :=
  ⟨(c7_cleanup_deletes_exactly demoNow 90 demoArchive _ (by decide)).mpr
      ⟨by decide, by decide, 2026, 3, 26, by decide, by decide⟩,
    fun h => by
      obtain ⟨-, -, y, m, d, hp, hlt⟩ :=
        (c7_cleanup_deletes_exactly demoNow 90 demoArchive _ (by decide)).mp h
      have hp2 : parseYmd (stripHtml "2026-10-02.html") = some (2026, 10, 2) := by decide
      rw [hp] at hp2
      have hy : y = 2026 ∧ m = 10 ∧ d = 2 := by
        simpa using Option.some.inj hp2
      obtain ⟨rfl, rfl, rfl⟩ := hy
      exact absurd hlt (by decide)⟩

/-- C8: cleanup is idempotent — a second run over the directory state left by
a first run (same reference time, no new entries) deletes nothing: the
remaining set is unchanged and the second removal count is zero. -/
theorem c8_cleanup_idempotent (now : Int) (keepDays : Nat) (dir : List String) :
    (cleanupOldArchives now keepDays
        (cleanupOldArchives now keepDays dir).remaining).remaining =
      (cleanupOldArchives now keepDays dir).remaining ∧
    (cleanupOldArchives now keepDays
        (cleanupOldArchives now keepDays dir).remaining).removedCount = 0 := by
  have h1 := cleanupLoop_spec now keepDays dir
  have h2 := cleanupLoop_spec now keepDays (cleanupOldArchives now keepDays dir).remaining
  simp only [cleanupOldArchives] at h1 h2 ⊢
  constructor
  · rw [h2.1, h1.1, filter_idem_aux]
  · rw [h2.2, h1.1, filter_neg_filter_aux]
    rfl

/-! ## C5: process exit contract -/

/-- C5: the process exits 0 exactly when the generation credential is set, no
interruption or startup failure occurs, the combined fetched list is
non-empty, and rendering/archiving raise nothing (summarization always
completes, by AI or fallback); the exit code is always 0 or 1; and an empty
combined list makes `generate` abort before the summarization step with a
failure exit code. -/
theorem c5_exit_codes (keySet interrupted startupRaises : Bool) (cfg : SourcesConfig)
    (hOp nOp rOp : Nat → Except Unit (List Article))
    (api : Nat → Except Unit RawResponse) (raisesLate : Bool) :
    (mainExitCode keySet interrupted startupRaises cfg hOp nOp rOp api raisesLate = 0 ↔
      (keySet = true ∧ interrupted = false ∧ startupRaises = false ∧ raisesLate = false ∧
        (fetchArticlesWithRetry cfg hOp nOp rOp).isEmpty = false)) ∧
    (mainExitCode keySet interrupted startupRaises cfg hOp nOp rOp api raisesLate = 0 ∨
      mainExitCode keySet interrupted startupRaises cfg hOp nOp rOp api raisesLate = 1) ∧
    ((fetchArticlesWithRetry cfg hOp nOp rOp).isEmpty = true →
      (generateRun cfg hOp nOp rOp api raisesLate).outcome =
          GenerateOutcome.abortedNoArticles ∧
        (generateRun cfg hOp nOp rOp api raisesLate).summary = none ∧
        mainExitCode keySet interrupted startupRaises cfg hOp nOp rOp api raisesLate = 1) := by
  cases keySet <;> cases interrupted <;> cases startupRaises <;> cases raisesLate <;>
    by_cases hA : (fetchArticlesWithRetry cfg hOp nOp rOp).isEmpty <;>
      simp [mainExitCode, generateRun, generateReturns, hA]

/-- Witness for C5: with the credential set, no interruption, one enabled
source yielding one article and no I/O failure, the process exits 0. -/
theorem c5_exit_codes_witness :
    mainExitCode true false false ⟨true, false, false⟩
      (fun _ => Except.ok [⟨"はてブ", "A", "https://a", 3, "3 users"⟩])
      (fun _ => Except.ok []) (fun _ => Except.ok [])
      (fun _ => Except.ok RawResponse.malformed) false = 0 :=
  (c5_exit_codes true false false ⟨true, false, false⟩
    (fun _ => Except.ok [⟨"はてブ", "A", "https://a", 3, "3 users"⟩])
    (fun _ => Except.ok []) (fun _ => Except.ok [])
    (fun _ => Except.ok RawResponse.malformed) false).1.mpr
    ⟨rfl, rfl, rfl, rfl, by decide⟩

end Newsfeed
